import Mathlib

/-!
Verification of the kenlm-rs C++ glue sources `src/lm/virtual_interface.cc`
and `src/cxx/lm/config.cc` against the repository specification.

The two source files are shallowly embedded below: the `Config` default
constructor and its two mutators, the two `Config_Create` factories, the
`Vocabulary::SetSpecial` mutator, and the `LoadVirtualPtr` loader that
dispatches on the model type recognized in a file header.
-/

namespace KenlmRs

/-- Modelled from the spec: the three-way policy type `WarningAction`
(declared in `config.hh`, which is not under `src/`): COMPLAIN (emit
diagnostic, substitute, continue), SILENT (substitute, continue),
THROW_UP (abort the operation). -/
inductive WarningAction where
  | THROW_UP
  | COMPLAIN
  | SILENT
deriving DecidableEq

/-- Modelled from the spec: the verbosity tier for irregular build input,
one of ALL, EXPENSIVE, NONE (declared in `config.hh`, not under `src/`). -/
inductive ARPALoadComplain where
  | ALL
  | EXPENSIVE
  | NONE
deriving DecidableEq

/-- Modelled from the spec: when the binary image is materialized relative
to build (declared in `config.hh`, not under `src/`); the default
constructor in `config.cc` names `WRITE_AFTER`. -/
inductive WriteMethod where
  | WRITE_MMAP
  | WRITE_AFTER
deriving DecidableEq

/-- Modelled from the spec: the rest-cost aggregation rule (declared in
`config.hh`, not under `src/`). The spec states the rule is currently
maximum-only, so the type has the single tag `REST_MAX`, the one named by
the default constructor in `config.cc`. -/
inductive RestFunction where
  | REST_MAX
deriving DecidableEq

/-- Modelled from the spec: the mmap load strategy `util::LoadMethod`
(declared in `util/mmap.hh`, not under `src/`): eager-populate versus
lazy-fault variants; the default constructor names `POPULATE_OR_READ`. -/
inductive LoadMethod where
  | LAZY
  | POPULATE_OR_LAZY
  | POPULATE_OR_READ
  | READ
  | PARALLEL_READ
deriving DecidableEq

/-- The diagnostics sink field `messages` holds a `std::ostream*`: either
null, the standard error stream `std::cerr`, or some other stream
identified abstractly. -/
inductive MessageSink where
  | null
  | cerr
  | stream (id : Nat)
deriving DecidableEq

/-- The configuration bundle `lm::ngram::Config`, with one Lean field per
field initialized by the default constructor in `src/cxx/lm/config.cc`.
Pointer-valued fields (`enumerate_vocab : EnumerateVocab*`,
`write_mmap : const char*`) are embedded as `Option` over an abstract
callback identifier and the string respectively; the two `float` fields
hold exact constants in the source (`-100.0`, `1.5`) and are embedded as
rationals. -/
structure Config where
  show_progress : Bool
  messages : MessageSink
  enumerate_vocab : Option Nat
  unknown_missing : WarningAction
  sentence_marker_missing : WarningAction
  positive_log_probability : WarningAction
  unknown_missing_logprob : ℚ
  probing_multiplier : ℚ
  building_memory : Nat
  temporary_directory_prefix : String
  arpa_complain : ARPALoadComplain
  write_mmap : Option String
  write_method : WriteMethod
  include_vocab : Bool
  rest_function : RestFunction
  prob_bits : Nat
  backoff_bits : Nat
  pointer_bhiksha_bits : Nat
  load_method : LoadMethod
deriving DecidableEq

/-- The default constructor `Config::Config()` from `src/cxx/lm/config.cc`,
field by field in source order. -/
def Config.init : Config where
  show_progress := true
  messages := MessageSink.cerr
  enumerate_vocab := none
  unknown_missing := WarningAction.COMPLAIN
  sentence_marker_missing := WarningAction.THROW_UP
  positive_log_probability := WarningAction.THROW_UP
  unknown_missing_logprob := -100
  probing_multiplier := 3 / 2
  building_memory := 1073741824
  temporary_directory_prefix := ""
  arpa_complain := ARPALoadComplain.ALL
  write_mmap := none
  write_method := WriteMethod.WRITE_AFTER
  include_vocab := true
  rest_function := RestFunction.REST_MAX
  prob_bits := 8
  backoff_bits := 8
  pointer_bhiksha_bits := 22
  load_method := LoadMethod.POPULATE_OR_READ

/-- `lm::ngram::Config_Create` from `src/cxx/lm/config.cc`: default-constructs
a fresh `Config`. -/
def ngram_Config_Create : Config := Config.init

/-- `lm::base::Config_Create` from `src/lm/virtual_interface.cc`:
default-constructs a fresh `Config`. -/
def base_Config_Create : Config := Config.init

/-- `lm::ngram::Config_set_load_method` from `src/cxx/lm/config.cc`:
assigns the `load_method` field. -/
def Config_set_load_method (config : Config) (load_method : LoadMethod) : Config :=
  { config with load_method := load_method }

/-- `lm::ngram::Config_set_enumerate_callback` from `src/cxx/lm/config.cc`:
stores the address of the callback into the `enumerate_vocab` field. -/
def Config_set_enumerate_callback (config : Config) (enumerateCallback : Nat) : Config :=
  { config with enumerate_vocab := some enumerateCallback }

/-- The state of `lm::base::Vocabulary` touched by the code in
`src/lm/virtual_interface.cc`: the three reserved word indices. -/
structure Vocabulary where
  begin_sentence_ : Nat
  end_sentence_ : Nat
  not_found_ : Nat
deriving DecidableEq

/-- `Vocabulary::SetSpecial` from `src/lm/virtual_interface.cc`: stores the
three reserved indices. -/
def Vocabulary.SetSpecial (v : Vocabulary)
    (begin_sentence end_sentence not_found : Nat) : Vocabulary :=
  { v with
    begin_sentence_ := begin_sentence
    end_sentence_ := end_sentence
    not_found_ := not_found }

/-- The mutating operations `src/lm/virtual_interface.cc` defines on
`lm::base::Vocabulary`: `SetSpecial` is the only one (the destructor has an
empty body). -/
inductive VocabOp where
  | setSpecial (begin_sentence end_sentence not_found : Nat)
deriving DecidableEq

/-- Run one vocabulary operation. -/
def Vocabulary.applyOp : Vocabulary → VocabOp → Vocabulary
  | v, VocabOp.setSpecial b e n => v.SetSpecial b e n

/-- Run a sequence of vocabulary operations, oldest first. -/
def Vocabulary.applyOps (v : Vocabulary) (ops : List VocabOp) : Vocabulary :=
  ops.foldl Vocabulary.applyOp v

/-- The `lm::ngram::ModelType` enumeration tags as they appear in the
`switch` of `LoadVirtualPtr`; numbering follows the declaration order of the
six variants (the enum lives in `model_type.hh`, not under `src/`). -/
def PROBING : Nat := 0

/-- `ModelType` tag of `RestProbingModel`. -/
def REST_PROBING : Nat := 1

/-- `ModelType` tag of `TrieModel`. -/
def TRIE : Nat := 2

/-- `ModelType` tag of `QuantTrieModel`. -/
def QUANT_TRIE : Nat := 3

/-- `ModelType` tag of `ArrayTrieModel`. -/
def ARRAY_TRIE : Nat := 4

/-- `ModelType` tag of `QuantArrayTrieModel`. -/
def QUANT_ARRAY_TRIE : Nat := 5

/-- The concrete model object `LoadVirtualPtr` constructs: one of the six
variants, carrying the file name and config forwarded to its constructor. -/
inductive ModelVariant where
  | ProbingModel (file_name : String) (config : Config)
  | RestProbingModel (file_name : String) (config : Config)
  | TrieModel (file_name : String) (config : Config)
  | QuantTrieModel (file_name : String) (config : Config)
  | ArrayTrieModel (file_name : String) (config : Config)
  | QuantArrayTrieModel (file_name : String) (config : Config)
deriving DecidableEq

/-- The exception raised by `UTIL_THROW(FormatLoadException, ...)`. -/
inductive LmException where
  | FormatLoadException (msg : String)
deriving DecidableEq

/-- Modelled from the spec: the outcome of `lm::ngram::RecognizeBinary`
(defined in `binary_format.cc`, not under `src/`). Per the spec it reads a
fixed-size header and yields either a recognized model-type tag or the
plain-text signal; in the plain-text case no `ModelType` is produced, so
the caller's by-reference `model_type` argument keeps its prior value. -/
inductive RecognizeResult where
  | binary (tag : Nat)
  | plainText
deriving DecidableEq

/-- `lm::base::LoadVirtualPtr` from `src/lm/virtual_interface.cc`.
`model_type` is initialized to `PROBING`, `RecognizeBinary` overwrites it
exactly when the file is a recognized binary (its boolean result is
discarded by the source), and the `switch` dispatches on the resulting tag,
throwing `FormatLoadException` in the `default` case. -/
def LoadVirtualPtr (file_name : String) (config : Config)
    (recognized : RecognizeResult) : Except LmException ModelVariant :=
  let model_type : Nat := PROBING
  let model_type : Nat :=
    match recognized with
    | RecognizeResult.binary tag => tag
    | RecognizeResult.plainText => model_type
  if model_type = PROBING then
    Except.ok (ModelVariant.ProbingModel file_name config)
  else if model_type = REST_PROBING then
    Except.ok (ModelVariant.RestProbingModel file_name config)
  else if model_type = TRIE then
    Except.ok (ModelVariant.TrieModel file_name config)
  else if model_type = QUANT_TRIE then
    Except.ok (ModelVariant.QuantTrieModel file_name config)
  else if model_type = ARRAY_TRIE then
    Except.ok (ModelVariant.ArrayTrieModel file_name config)
  else if model_type = QUANT_ARRAY_TRIE then
    Except.ok (ModelVariant.QuantArrayTrieModel file_name config)
  else
    Except.error (LmException.FormatLoadException
      ("Confused by model type " ++ toString model_type))

/-- C1 counterexample: on a file `RecognizeBinary` reports as plain text,
`LoadVirtualPtr` does construct a loaded model — a `ProbingModel` — instead
of signalling that the file must be routed through the build path: the
boolean result of `RecognizeBinary` is discarded and the tag keeps its
`PROBING` initialization. -/
theorem C1_counterexample :
    LoadVirtualPtr "model.arpa" Config.init RecognizeResult.plainText
      = Except.ok (ModelVariant.ProbingModel "model.arpa" Config.init) := rfl

/-- C1 (amended): for every file path for which `RecognizeBinary` reports
plain text, `LoadVirtualPtr` constructs a `ProbingModel` from that path and
config (the default `PROBING` tag is used, leaving the plain-text input to
the model constructor); it never signals an error for such files. -/
theorem C1_plaintext_constructs_probing_model (file_name : String) (config : Config) :
    LoadVirtualPtr file_name config RecognizeResult.plainText
      = Except.ok (ModelVariant.ProbingModel file_name config) := rfl

/-- C2: for every header tag that is none of the six recognized
`ModelVariant` tags, `LoadVirtualPtr` raises a `FormatLoadException`
rather than returning a model. -/
theorem C2_unrecognized_tag_raises_format_error (file_name : String) (config : Config)
    (tag : Nat)
    (h1 : tag ≠ PROBING) (h2 : tag ≠ REST_PROBING) (h3 : tag ≠ TRIE)
    (h4 : tag ≠ QUANT_TRIE) (h5 : tag ≠ ARRAY_TRIE) (h6 : tag ≠ QUANT_ARRAY_TRIE) :
    LoadVirtualPtr file_name config (RecognizeResult.binary tag)
      = Except.error (LmException.FormatLoadException
          ("Confused by model type " ++ toString tag)) := by
  simp [LoadVirtualPtr, h1, h2, h3, h4, h5, h6]

/-- C2 witness: tag 6 is unrecognized and the loader fails on it. -/
theorem C2_witness :
    (6 : Nat) ≠ PROBING ∧ (6 : Nat) ≠ REST_PROBING ∧ (6 : Nat) ≠ TRIE
    ∧ (6 : Nat) ≠ QUANT_TRIE ∧ (6 : Nat) ≠ ARRAY_TRIE ∧ (6 : Nat) ≠ QUANT_ARRAY_TRIE
    ∧ LoadVirtualPtr "model.bin" Config.init (RecognizeResult.binary 6)
        = Except.error (LmException.FormatLoadException
            ("Confused by model type " ++ toString (6 : Nat))) :=
  ⟨by decide, by decide, by decide, by decide, by decide, by decide,
   C2_unrecognized_tag_raises_format_error "model.bin" Config.init 6
     (by decide) (by decide) (by decide) (by decide) (by decide) (by decide)⟩

/-- C3: for each of the six recognized tags, `LoadVirtualPtr` constructs
exactly the corresponding concrete model variant, forwarding the file name
and config unchanged. -/
theorem C3_recognized_tag_dispatch (file_name : String) (config : Config) :
    LoadVirtualPtr file_name config (RecognizeResult.binary PROBING)
      = Except.ok (ModelVariant.ProbingModel file_name config)
    ∧ LoadVirtualPtr file_name config (RecognizeResult.binary REST_PROBING)
      = Except.ok (ModelVariant.RestProbingModel file_name config)
    ∧ LoadVirtualPtr file_name config (RecognizeResult.binary TRIE)
      = Except.ok (ModelVariant.TrieModel file_name config)
    ∧ LoadVirtualPtr file_name config (RecognizeResult.binary QUANT_TRIE)
      = Except.ok (ModelVariant.QuantTrieModel file_name config)
    ∧ LoadVirtualPtr file_name config (RecognizeResult.binary ARRAY_TRIE)
      = Except.ok (ModelVariant.ArrayTrieModel file_name config)
    ∧ LoadVirtualPtr file_name config (RecognizeResult.binary QUANT_ARRAY_TRIE)
      = Except.ok (ModelVariant.QuantArrayTrieModel file_name config) :=
  ⟨rfl, rfl, rfl, rfl, rfl, rfl⟩

/-- C4: `SetSpecial` stores exactly its three arguments as the reserved
begin-sentence, end-sentence, and not-found indices, and every subsequent
sequence of vocabulary operations that contains no further `SetSpecial`
call leaves the vocabulary — in particular the not-found index — unchanged
(in the source, `SetSpecial` is the only mutating operation on
`lm::base::Vocabulary`). -/
theorem C4_set_special_fixes_reserved_indices (v : Vocabulary)
    (begin_sentence end_sentence not_found : Nat) (ops : List VocabOp)
    (h : ∀ op ∈ ops, ∀ b e n, op ≠ VocabOp.setSpecial b e n) :
    ((v.SetSpecial begin_sentence end_sentence not_found).begin_sentence_ = begin_sentence
      ∧ (v.SetSpecial begin_sentence end_sentence not_found).end_sentence_ = end_sentence
      ∧ (v.SetSpecial begin_sentence end_sentence not_found).not_found_ = not_found)
    ∧ Vocabulary.applyOps (v.SetSpecial begin_sentence end_sentence not_found) ops
      = v.SetSpecial begin_sentence end_sentence not_found := by
  refine ⟨⟨rfl, rfl, rfl⟩, ?_⟩
  cases ops with
  | nil => rfl
  | cons op rest =>
    cases op with
    | setSpecial b e n => exact absurd rfl (h _ (List.mem_cons_self _ _) b e n)

/-- C4 witness: a concrete `SetSpecial` call followed by the empty
operation sequence. -/
theorem C4_witness :
    (∀ op ∈ ([] : List VocabOp), ∀ b e n, op ≠ VocabOp.setSpecial b e n)
    ∧ ((Vocabulary.SetSpecial ⟨0, 0, 0⟩ 1 2 3).begin_sentence_ = 1
        ∧ (Vocabulary.SetSpecial ⟨0, 0, 0⟩ 1 2 3).end_sentence_ = 2
        ∧ (Vocabulary.SetSpecial ⟨0, 0, 0⟩ 1 2 3).not_found_ = 3)
    ∧ Vocabulary.applyOps (Vocabulary.SetSpecial ⟨0, 0, 0⟩ 1 2 3) []
      = Vocabulary.SetSpecial ⟨0, 0, 0⟩ 1 2 3 :=
  ⟨by simp,
   (C4_set_special_fixes_reserved_indices ⟨0, 0, 0⟩ 1 2 3 [] (by simp)).1,
   (C4_set_special_fixes_reserved_indices ⟨0, 0, 0⟩ 1 2 3 [] (by simp)).2⟩

/-- C5: the default-constructed `Config` satisfies every structural
constraint the spec declares fatal: `probing_multiplier = 1.5 > 1`,
`prob_bits = 8` and `backoff_bits = 8` are nonzero and at most 24, and
`pointer_bhiksha_bits = 22` is nonzero and at most 24, within the
addressable-payload ceiling. -/
theorem C5_default_config_structurally_valid :
    Config.init.probing_multiplier = 3 / 2
    ∧ (1 : ℚ) < Config.init.probing_multiplier
    ∧ Config.init.prob_bits = 8
    ∧ Config.init.prob_bits ≠ 0 ∧ Config.init.prob_bits ≤ 24
    ∧ Config.init.backoff_bits = 8
    ∧ Config.init.backoff_bits ≠ 0 ∧ Config.init.backoff_bits ≤ 24
    ∧ Config.init.pointer_bhiksha_bits = 22
    ∧ Config.init.pointer_bhiksha_bits ≠ 0 ∧ Config.init.pointer_bhiksha_bits ≤ 24 := by
  refine ⟨rfl, ?_, rfl, by decide, by decide, rfl, by decide, by decide, rfl,
    by decide, by decide⟩
  norm_num [Config.init]

/-- C6: the default-constructed `Config` points its diagnostics sink at the
standard error stream. -/
theorem C6_default_messages_is_cerr :
    Config.init.messages = MessageSink.cerr := rfl

/-- C7: the default-constructed `Config` selects the maximum-over-extensions
rest-cost aggregation rule, which is the only aggregation rule the system
supports. -/
theorem C7_default_rest_function_is_max :
    Config.init.rest_function = RestFunction.REST_MAX
    ∧ ∀ r : RestFunction, r = RestFunction.REST_MAX :=
  ⟨rfl, fun r => by cases r; rfl⟩

/-- C8: the default substituted log-probability for tolerated unknown words
is -100, which is strictly negative and hence at most 0. -/
theorem C8_unknown_missing_logprob_nonpositive :
    Config.init.unknown_missing_logprob = -100
    ∧ Config.init.unknown_missing_logprob < 0
    ∧ Config.init.unknown_missing_logprob ≤ 0 := by
  refine ⟨rfl, ?_, ?_⟩ <;> norm_num [Config.init]

/-- C9: each `Config` mutator changes only its named field:
`Config_set_load_method` sets `load_method` to its argument and leaves the
other eighteen fields unchanged, and `Config_set_enumerate_callback` points
`enumerate_vocab` at its argument and leaves the other eighteen fields
unchanged. -/
theorem C9_mutators_change_only_named_field (c : Config) (m : LoadMethod) (cb : Nat) :
    ((Config_set_load_method c m).load_method = m
      ∧ (Config_set_load_method c m).show_progress = c.show_progress
      ∧ (Config_set_load_method c m).messages = c.messages
      ∧ (Config_set_load_method c m).enumerate_vocab = c.enumerate_vocab
      ∧ (Config_set_load_method c m).unknown_missing = c.unknown_missing
      ∧ (Config_set_load_method c m).sentence_marker_missing = c.sentence_marker_missing
      ∧ (Config_set_load_method c m).positive_log_probability = c.positive_log_probability
      ∧ (Config_set_load_method c m).unknown_missing_logprob = c.unknown_missing_logprob
      ∧ (Config_set_load_method c m).probing_multiplier = c.probing_multiplier
      ∧ (Config_set_load_method c m).building_memory = c.building_memory
      ∧ Config.temporary_directory_prefix (Config_set_load_method c m)
        = Config.temporary_directory_prefix c
      ∧ (Config_set_load_method c m).arpa_complain = c.arpa_complain
      ∧ (Config_set_load_method c m).write_mmap = c.write_mmap
      ∧ (Config_set_load_method c m).write_method = c.write_method
      ∧ (Config_set_load_method c m).include_vocab = c.include_vocab
      ∧ (Config_set_load_method c m).rest_function = c.rest_function
      ∧ (Config_set_load_method c m).prob_bits = c.prob_bits
      ∧ (Config_set_load_method c m).backoff_bits = c.backoff_bits
      ∧ (Config_set_load_method c m).pointer_bhiksha_bits = c.pointer_bhiksha_bits)
    ∧ ((Config_set_enumerate_callback c cb).enumerate_vocab = some cb
      ∧ (Config_set_enumerate_callback c cb).show_progress = c.show_progress
      ∧ (Config_set_enumerate_callback c cb).messages = c.messages
      ∧ (Config_set_enumerate_callback c cb).unknown_missing = c.unknown_missing
      ∧ (Config_set_enumerate_callback c cb).sentence_marker_missing
        = c.sentence_marker_missing
      ∧ (Config_set_enumerate_callback c cb).positive_log_probability
        = c.positive_log_probability
      ∧ (Config_set_enumerate_callback c cb).unknown_missing_logprob
        = c.unknown_missing_logprob
      ∧ (Config_set_enumerate_callback c cb).probing_multiplier = c.probing_multiplier
      ∧ (Config_set_enumerate_callback c cb).building_memory = c.building_memory
      ∧ Config.temporary_directory_prefix (Config_set_enumerate_callback c cb)
        = Config.temporary_directory_prefix c
      ∧ (Config_set_enumerate_callback c cb).arpa_complain = c.arpa_complain
      ∧ (Config_set_enumerate_callback c cb).write_mmap = c.write_mmap
      ∧ (Config_set_enumerate_callback c cb).write_method = c.write_method
      ∧ (Config_set_enumerate_callback c cb).include_vocab = c.include_vocab
      ∧ (Config_set_enumerate_callback c cb).rest_function = c.rest_function
      ∧ (Config_set_enumerate_callback c cb).prob_bits = c.prob_bits
      ∧ (Config_set_enumerate_callback c cb).backoff_bits = c.backoff_bits
      ∧ (Config_set_enumerate_callback c cb).pointer_bhiksha_bits = c.pointer_bhiksha_bits
      ∧ (Config_set_enumerate_callback c cb).load_method = c.load_method) :=
  ⟨⟨rfl, rfl, rfl, rfl, rfl, rfl, rfl, rfl, rfl, rfl, rfl, rfl, rfl, rfl, rfl,
    rfl, rfl, rfl, rfl⟩,
   ⟨rfl, rfl, rfl, rfl, rfl, rfl, rfl, rfl, rfl, rfl, rfl, rfl, rfl, rfl, rfl,
    rfl, rfl, rfl, rfl⟩⟩

/-- C10: the two factory functions `lm::ngram::Config_Create` and
`lm::base::Config_Create` return configurations equal to each other and to
a default-constructed `Config`, field for field. -/
theorem C10_factories_return_default_config :
    ngram_Config_Create = base_Config_Create
    ∧ ngram_Config_Create = Config.init
    ∧ base_Config_Create = Config.init :=
  ⟨rfl, rfl, rfl⟩

end KenlmRs
